import Mathlib

/-!
Verification of the garmin-running-ai repository's natural-language
specification against a shallow Lean embedding of its Python sources.

Modelling conventions:
* Python floats are modelled by exact rationals (`ℚ`).  All numeric claims
  of the specification are stated in exact arithmetic.
* `round(x, n)` from Python is modelled by `roundTo`, rounding `x * 10^n` to
  the nearest integer.  Python uses bankers' rounding on binary doubles; the
  two models agree except at exact half-way ties, which no theorem or
  counterexample below exercises.
* Stochastic calls (`np.random.normal`, `np.random.uniform`) are modelled by
  explicit input streams of draw values: `normal(0, σ)` becomes `σ * g i`
  where `g i` is the standard-normal draw, which is exactly `0` when `σ = 0`.
* File and console I/O is out of scope; functions that print are modelled by
  the list of messages they emit where a claim depends on it.
-/

/-- Computable rounding of a rational to the nearest integer (ties away from
the exact tie handling of Python, see module docstring). -/
def intRound (q : ℚ) : ℤ := (q + 1/2).floor

/-- Round a rational to `n` decimal places (model of Python `round(x, n)`). -/
def roundTo (n : ℕ) (q : ℚ) : ℚ := ((intRound (q * 10 ^ n) : ℤ) : ℚ) / 10 ^ n

/-- Round to 0 decimal places, `round(x, 0)`. -/
def round0 (q : ℚ) : ℚ := roundTo 0 q

/-- Round to 1 decimal place, `round(x, 1)`. -/
def round1 (q : ℚ) : ℚ := roundTo 1 q

/-- Round to 2 decimal places, `round(x, 2)`. -/
def round2 (q : ℚ) : ℚ := roundTo 2 q

/-- Computable maximum on `ℚ` (Python `max` on two floats). -/
def rmax (a b : ℚ) : ℚ := if a ≤ b then b else a

/-- Computable minimum on `ℚ` (Python `min` on two floats). -/
def rmin (a b : ℚ) : ℚ := if a ≤ b then a else b

/-- Computable absolute value on `ℚ` (Python `abs`). -/
def rabs (q : ℚ) : ℚ := if q < 0 then -q else q

/- ───────────────────────── Form analyzer (form_analyzer.py) ──────────── -/

/-- A numeric range `{min, max}` from the benchmark table. -/
structure MetricRange where
  min : ℚ
  max : ℚ
deriving DecidableEq

/-- One entry of the `BENCHMARKS` table: elite / good / target ranges plus
the free-text description from which metric polarity is inferred. -/
structure Benchmark where
  elite : MetricRange
  good : MetricRange
  target : MetricRange
  description : String
deriving DecidableEq

/-- The six keys of the `BENCHMARKS` dictionary. -/
inductive BenchKey where
  | cadence_spm
  | vertical_oscillation_cm
  | vertical_ratio
  | ground_contact_time_ms
  | step_speed_loss_percent
  | hr_efficiency
deriving DecidableEq

/-- The static sports-science benchmark table (form_analyzer.py lines 13-50). -/
def BENCHMARKS : BenchKey → Benchmark
  | .cadence_spm =>
      ⟨⟨180, 200⟩, ⟨165, 180⟩, ⟨165, 180⟩, "Steps per minute"⟩
  | .vertical_oscillation_cm =>
      ⟨⟨0, 7⟩, ⟨7, 9⟩, ⟨7, 8⟩, "Vertical bounce (cm) - lower is better"⟩
  | .vertical_ratio =>
      ⟨⟨0, 7⟩, ⟨7, 9⟩, ⟨7, 8.5⟩, "Vertical movement ratio (%) - lower is better"⟩
  | .ground_contact_time_ms =>
      ⟨⟨200, 240⟩, ⟨240, 280⟩, ⟨240, 270⟩, "Ground contact time (ms) - shorter is better"⟩
  | .step_speed_loss_percent =>
      ⟨⟨0, 4⟩, ⟨4, 8⟩, ⟨4, 6⟩, "Step speed loss (%) - lower is better"⟩
  | .hr_efficiency =>
      ⟨⟨85, 100⟩, ⟨75, 85⟩, ⟨75, 90⟩, "HR as % of max (lower = more efficient)"⟩

/-- Substring test on character lists (model of Python `pat in hay`). -/
def hasSubList (hay pat : List Char) : Bool :=
  (List.range (hay.length + 1)).any fun i => (hay.drop i).take pat.length == pat

/-- Polarity inference of `score_metric`: Python
`"lower" in bench["description"].lower()`. -/
def lowerIsBetter (b : Benchmark) : Bool :=
  hasSubList (b.description.data.map Char.toLower) "lower".data

/-- The local variable `score` of `score_metric` before clamping and
rounding (form_analyzer.py lines 77-101), translated branch by branch. -/
def rawScore (value : ℚ) (k : BenchKey) : ℚ :=
  let bench := BENCHMARKS k
  if lowerIsBetter bench then
    if bench.elite.min ≤ value ∧ value ≤ bench.elite.max then 100
    else if bench.good.min ≤ value ∧ value ≤ bench.good.max then
      70 + (value - bench.good.min) / (bench.good.max - bench.good.min) * 30
    else if value < bench.elite.min then 100
    else rmax 30 (70 - (value - bench.good.max) * 5)
  else
    if bench.elite.min ≤ value ∧ value ≤ bench.elite.max then 100
    else if bench.target.min ≤ value ∧ value ≤ bench.target.max then
      75 + (value - bench.target.min) / (bench.target.max - bench.target.min) * 25
    else if value < bench.target.min then rmax 30 (75 - (bench.target.min - value) * 2)
    else rmax 0 (75 - (value - bench.target.max) * 3)

/-- The dictionary returned by `score_metric`. -/
structure ScoreResult where
  value : ℚ
  score : ℚ
  benchmark : Benchmark
  status : String
deriving DecidableEq

/-- Status label computed by `score_metric` from the unrounded score
(form_analyzer.py line 107). -/
def statusOf (score : ℚ) : String :=
  if 95 ≤ score then "⭐ Elite"
  else if 75 ≤ score then "✅ Good"
  else if 60 ≤ score then "🎯 Target"
  else "⚠️ Develop"

/-- `score_metric(value, benchmark_key)` (form_analyzer.py lines 69-108). -/
def score_metric (value : ℚ) (k : BenchKey) : ScoreResult :=
  { value := round2 value
    score := round1 (rmax 0 (rmin 100 (rawScore value k)))
    benchmark := BENCHMARKS k
    status := statusOf (rawScore value k) }

/-- The running profile fields read by `analyze_form`. -/
structure Profile where
  avg_cadence : ℚ
  avg_vertical_oscillation : ℚ
  avg_vertical_ratio : ℚ
  avg_ground_contact_time : ℚ
  avg_step_speed_loss_pct : ℚ
  avg_hr : ℚ
  max_hr : ℚ
deriving DecidableEq

/-- The numeric part of the dictionary returned by `analyze_form`: the six
per-metric score entries and the weighted overall score.  The timestamp,
activity count, strengths / improvement-areas / recommendations report lists
are pretty-printing derived from these scores and are not modelled. -/
structure Analysis where
  cadence : ScoreResult
  vertical_oscillation : ScoreResult
  vertical_ratio : ScoreResult
  ground_contact_time : ScoreResult
  step_speed_loss : ScoreResult
  hr_efficiency : ScoreResult
  overall_score : ℚ
deriving DecidableEq

/-- `analyze_form(df, profile)` (form_analyzer.py lines 111-164), restricted
to its numeric outputs.  The weighted overall sum iterates the weights
dictionary in insertion order, exactly as the Python generator expression. -/
def analyze_form (p : Profile) : Analysis :=
  let m_cadence := score_metric p.avg_cadence .cadence_spm
  let m_vo := score_metric p.avg_vertical_oscillation .vertical_oscillation_cm
  let m_vr := score_metric p.avg_vertical_ratio .vertical_ratio
  let m_gct := score_metric p.avg_ground_contact_time .ground_contact_time_ms
  let m_ssl := score_metric p.avg_step_speed_loss_pct .step_speed_loss_percent
  let hr_eff := p.avg_hr / p.max_hr * 100
  let m_hr := score_metric hr_eff .hr_efficiency
  let overall :=
    m_cadence.score * 0.15 + m_vo.score * 0.20 + m_gct.score * 0.20 +
      m_ssl.score * 0.25 + m_hr.score * 0.20
  { cadence := m_cadence
    vertical_oscillation := m_vo
    vertical_ratio := m_vr
    ground_contact_time := m_gct
    step_speed_loss := m_ssl
    hr_efficiency := m_hr
    overall_score := round1 overall }

/-- The weights dictionary of `analyze_form` (form_analyzer.py lines 152-158). -/
def overall_weights : List (String × ℚ) :=
  [("cadence", 0.15), ("vertical_oscillation", 0.20), ("ground_contact_time", 0.20),
   ("step_speed_loss", 0.25), ("hr_efficiency", 0.20)]

/- ─────────────── Gap predictor (models/predict_form_gaps.py) ─────────── -/

/-- Python `str.strip()` whitespace set. -/
def isPySpace (c : Char) : Bool :=
  c = ' ' || c = '\t' || c = '\n' || c = '\r' || c = '\x0b' || c = '\x0c'

/-- Strip leading and trailing whitespace from a character list
(Python `str.strip()`). -/
def trimChars (cs : List Char) : List Char :=
  ((cs.dropWhile isPySpace).reverse.dropWhile isPySpace).reverse

/-- Numeric value of a digit-character list, most significant first. -/
def digitsVal (cs : List Char) : ℕ :=
  cs.foldl (fun a c => 10 * a + (c.toNat - 48)) 0

/-- Model of Python `int(s)` on strings: optional surrounding whitespace,
optional sign, one or more decimal digits; anything else raises
(`none`).  Underscore separators and non-decimal bases are not modelled. -/
def pyIntCore : List Char → Option ℤ
  | [] => none
  | c :: rest =>
    if c = '+' then
      if rest ≠ [] ∧ rest.all Char.isDigit then some (digitsVal rest) else none
    else if c = '-' then
      if rest ≠ [] ∧ rest.all Char.isDigit then some (-(digitsVal rest : ℤ)) else none
    else if (c :: rest).all Char.isDigit then some (digitsVal (c :: rest)) else none

def pyIntChars (cs : List Char) : Option ℤ := pyIntCore (trimChars cs)

/-- Model of Python `float(s)` on strings, restricted to plain decimal
literals: optional whitespace, optional sign, digits with at most one dot
and at least one digit; anything else raises (`none`).  Exponents,
`inf`/`nan` and underscore separators are not modelled (no claim uses
them). -/
def pyFloatChars (cs : List Char) : Option ℚ :=
  let t := trimChars cs
  let sb : ℚ × List Char :=
    match t with
    | [] => (1, [])
    | c :: rest => if c = '+' then (1, rest) else if c = '-' then (-1, rest) else (1, t)
  let ip := sb.2.takeWhile (fun c => c ≠ '.')
  match sb.2.dropWhile (fun c => c ≠ '.') with
  | [] =>
    if ip ≠ [] ∧ ip.all Char.isDigit then some (sb.1 * digitsVal ip) else none
  | _ :: fp =>
    if (ip ≠ [] ∨ fp ≠ []) ∧ ip.all Char.isDigit ∧ fp.all Char.isDigit then
      some (sb.1 * ((digitsVal ip : ℚ) + (digitsVal fp : ℚ) / 10 ^ fp.length))
    else none

/-- `parse_garmin_pace(pace_str)` (predict_form_gaps.py lines 16-26).
`none` models a missing value (`None` / `NaN`, i.e. `pd.isna` true).
`Except.error` models an uncaught Python `ValueError` from `int()` /
`float()`. -/
def parse_garmin_pace (pace : Option String) : Except String ℚ :=
  match pace with
  | none => .ok (11/2)
  | some str =>
    let s := trimChars str.data
    if s.contains ':' then
      let part0 := s.takeWhile (fun c => c ≠ ':')
      let part1 := ((s.dropWhile (fun c => c ≠ ':')).tail).takeWhile (fun c => c ≠ ':')
      match pyIntChars part0, pyIntChars part1 with
      | some m, some sec => .ok ((m : ℚ) + (sec : ℚ) / 60)
      | _, _ => .error "ValueError"
    else if s.isEmpty then .ok (11/2)
    else
      match pyFloatChars s with
      | some v => .ok v
      | none => .error "ValueError"

/-- Decimal digit characters of a natural number, most significant first. -/
def toDigitChars (n : ℕ) : List Char :=
  if n < 10 then [Nat.digitChar n]
  else toDigitChars (n / 10) ++ [Nat.digitChar (n % 10)]
decreasing_by exact Nat.div_lt_self (by omega) (by omega)

/-- A well-formed `"M:SS"` pace string built from numerals. -/
def mkPaceString (m s : ℕ) : String :=
  String.mk (toDigitChars m ++ ':' :: toDigitChars s)

/-- A decimal digit character and everything the parser needs to know
about it. -/
def goodDigit (c : Char) : Prop :=
  c.isDigit = true ∧ isPySpace c = false ∧ c ≠ '+' ∧ c ≠ '-' ∧ c ≠ ':'

/-- The six per-metric elite targets of `predict_new_run`. -/
structure EliteTargets where
  cadencespm : ℚ
  verticaloscillationcm : ℚ
  groundcontacttimems : ℚ
  stepspeedlosspct : ℚ
  heartratebpm : ℚ
  paceminkm : ℚ
deriving DecidableEq

/-- Base elite targets, marathon-training default
(predict_form_gaps.py lines 85-92). -/
def base_elite_targets : EliteTargets :=
  { cadencespm := 175.0
    verticaloscillationcm := 7.2
    groundcontacttimems := 245.0
    stepspeedlosspct := 4.5
    heartratebpm := 155.0
    paceminkm := 5.05 }

/-- The distance-aware elite-target selection of `predict_new_run`
(predict_form_gaps.py lines 94-117): the `if / elif / elif / else` ladder
over `distance_km`, returning the (possibly updated) target dictionary and
the pace category.  The surrounding regression-model call is an external
black box outside this ladder. -/
def distance_elite_targets (distance_km : ℚ) : EliteTargets × String :=
  if distance_km ≤ 7 then
    ({ base_elite_targets with paceminkm := 4.20, cadencespm := 180.0, heartratebpm := 165.0 },
      "5K Training")
  else if distance_km ≤ 15 then
    ({ base_elite_targets with paceminkm := 4.35, cadencespm := 178.0, heartratebpm := 162.0 },
      "10K Training")
  else if distance_km ≤ 25 then
    ({ base_elite_targets with paceminkm := 4.55, cadencespm := 175.0, heartratebpm := 158.0 },
      "Half Training")
  else (base_elite_targets, "Marathon Training")

/-- The distance ladder exactly as the specification words it: buckets
`d ≤ 7`, `7 < d ≤ 15`, `15 < d ≤ 25`, `d > 25`, the first three overriding
pace / cadence / heart-rate on the base targets and the last leaving the
base Marathon targets unchanged. -/
def spec_distance_ladder (d : ℚ) : EliteTargets × String :=
  if d ≤ 7 then
    (⟨180.0, 7.2, 245.0, 4.5, 165.0, 4.20⟩, "5K Training")
  else if 7 < d ∧ d ≤ 15 then
    (⟨178.0, 7.2, 245.0, 4.5, 162.0, 4.35⟩, "10K Training")
  else if 15 < d ∧ d ≤ 25 then
    (⟨175.0, 7.2, 245.0, 4.5, 158.0, 4.55⟩, "Half Training")
  else (base_elite_targets, "Marathon Training")

/- ────────── Synthetic generator (synthetic_data_generator.py) ─────────── -/

/-- `interpolate_metric(current, target, weeks, noise_level)`
(synthetic_data_generator.py lines 36-63).  The Gaussian draw
`np.random.normal(0, noise_std)` is modelled as `noise_std * g week` where
`g` is the stream of standard-normal draw values; for `noise_std = 0` the
draw is exactly `0` in both the code and the model.  Python defaults:
`weeks=16`, `noise_level=0.05`. -/
def interpolate_metric (current target : ℚ) (weeks : ℕ) (noise_level : ℚ)
    (g : ℕ → ℚ) : List ℚ :=
  (List.range weeks).map fun (i : ℕ) =>
    let progress : ℚ := ((i : ℚ) + 1) / (weeks : ℚ)
    let value := current + (target - current) * progress
    let noise_std := noise_level * rabs (current - target) * (1 - progress * 0.5)
    round2 (value + noise_std * g (i + 1))

/-- The five current-profile values consumed by
`generate_synthetic_progression`.  The code skips a metric whose key is
missing from either dictionary; this model covers the main path where all
five are present (the cadence progression must exist, otherwise line 127
of the source raises `KeyError`). -/
structure CurrentProfile where
  avg_cadence : ℚ
  avg_vertical_oscillation : ℚ
  avg_ground_contact_time : ℚ
  avg_step_speed_loss_pct : ℚ
  avg_hr : ℚ

/-- The five `ideal` values of `target_profile["metrics"]`. -/
structure TargetIdeals where
  cadence_spm : ℚ
  vertical_oscillation_cm : ℚ
  ground_contact_time_ms : ℚ
  step_speed_loss_percent : ℚ
  hr_efficiency : ℚ

/-- All random draws consumed by one call of
`generate_synthetic_progression`: per-metric standard-normal streams
(indexed by week) and per-(week, day) uniform draws for distance
(support `[4, 12]`) and duration (support `[30, 80]`). -/
structure DrawStream where
  gCad : ℕ → ℚ
  gVo : ℕ → ℚ
  gGct : ℕ → ℚ
  gSsl : ℕ → ℚ
  gHr : ℕ → ℚ
  dist : ℕ → ℕ → ℚ
  dur : ℕ → ℕ → ℚ

/-- One synthesized run (a row of the generated DataFrame).  The
`activity_id` string (`"synthetic_" + run_id`) and the formatted `date`
string are bookkeeping text derived from `run_id` / `week` / `day` and are
represented by those numbers. -/
structure SyntheticRun where
  run_id : ℕ
  week : ℕ
  day : ℕ
  distance_km : ℚ
  duration_min : ℚ
  cadence_spm : ℚ
  vertical_oscillation_cm : ℚ
  ground_contact_time_ms : ℚ
  step_speed_loss_pct : ℚ
  heart_rate_bpm : ℚ
  pace_min_km : ℚ
  power_watts : ℚ
  aerobic_te : ℚ
  improvement_phase : String

/-- `run_data[metric] = values[week - 1] if week <= len(values) else values[-1]`
(synthetic_data_generator.py line 111). -/
def pickWeek (values : List ℚ) (week : ℕ) : ℚ :=
  if week ≤ values.length then values.getD (week - 1) 0 else values.getLastD 0

/-- The cadence progression built by `generate_synthetic_progression`
(`interpolate_metric` with `noise_level=0.08` on the cadence pair). -/
def cadence_progression (c : CurrentProfile) (t : TargetIdeals) (num_weeks : ℕ)
    (r : DrawStream) : List ℚ :=
  interpolate_metric c.avg_cadence t.cadence_spm num_weeks 0.08 r.gCad

/-- `generate_synthetic_progression(current, target_profile, num_weeks,
runs_per_week)` (synthetic_data_generator.py lines 66-134).  Python
defaults: `num_weeks=16`, `runs_per_week=3`. -/
def generate_synthetic_progression (c : CurrentProfile) (t : TargetIdeals)
    (num_weeks runs_per_week : ℕ) (r : DrawStream) : List SyntheticRun :=
  let progCad := cadence_progression c t num_weeks r
  let progVo := interpolate_metric c.avg_vertical_oscillation t.vertical_oscillation_cm
    num_weeks 0.08 r.gVo
  let progGct := interpolate_metric c.avg_ground_contact_time t.ground_contact_time_ms
    num_weeks 0.08 r.gGct
  let progSsl := interpolate_metric c.avg_step_speed_loss_pct t.step_speed_loss_percent
    num_weeks 0.08 r.gSsl
  let progHr := interpolate_metric c.avg_hr t.hr_efficiency num_weeks 0.08 r.gHr
  (List.range num_weeks).flatMap fun (wi : ℕ) =>
    (List.range runs_per_week).map fun (di : ℕ) =>
      let week := wi + 1
      let day := di + 1
      let distance_km := round2 (r.dist week day)
      let duration_min := round1 (r.dur week day)
      let cad := pickWeek progCad week
      let vo := pickWeek progVo week
      let gct := pickWeek progGct week
      let ssl := pickWeek progSsl week
      let hr := pickWeek progHr week
      let pace := round2 (duration_min / distance_km)
      let power := round0 (200 + (cad - 160) * 2 + (hr - 140) * 0.5)
      let te := round1 (rmin 5.0 (rmax 1.0 (1.5 + (hr - 140) * 0.05)))
      let improvement :=
        (cad - progCad.getD 0 0) / (progCad.getLastD 0 - progCad.getD 0 0 + 0.001)
      let phase :=
        if improvement < 0.33 then "early"
        else if improvement < 0.67 then "mid" else "advanced"
      { run_id := 1000 + (wi * runs_per_week + di + 1)
        week := week
        day := day
        distance_km := distance_km
        duration_min := duration_min
        cadence_spm := cad
        vertical_oscillation_cm := vo
        ground_contact_time_ms := gct
        step_speed_loss_pct := ssl
        heart_rate_bpm := hr
        pace_min_km := pace
        power_watts := power
        aerobic_te := te
        improvement_phase := phase }

/-- The improvement-phase rule exactly as the claim words it: normalized
progress `(cad - first) / (last - first)` with thresholds `1/3` and `2/3`. -/
def spec_phase_thirds (first lst cad : ℚ) : String :=
  let p := (cad - first) / (lst - first)
  if p < 1/3 then "early" else if p < 2/3 then "mid" else "advanced"

/-- The improvement-phase rule as the code computes it: normalized progress
`(cad - first) / (last - first + 0.001)` with thresholds `0.33` and `0.67`. -/
def spec_phase_guarded (first lst cad : ℚ) : String :=
  let p := (cad - first) / (lst - first + 0.001)
  if p < 0.33 then "early" else if p < 0.67 then "mid" else "advanced"

/- ──────────────── Pipeline orchestration (pipeline.py, part_000) ──────── -/

/-- Result of a `PipelineOrchestrator` run: the `self.results` entries as
(phase, status) pairs in the order they were written, and the process exit
code (`0` normal return, `1` for the `sys.exit(1)` taken when a phase
raises). -/
structure OrchResult where
  results : List (ℕ × String)
  exit_code : ℕ
deriving DecidableEq

/-- `PipelineOrchestrator.run_phase_1` (pipeline.py lines 93-132): body
outcome abstracted by `fit_exists` (FIT files present) and `raises1` (the
conversion / analysis body raises).  Returns the `results[1]` entry and
whether the exception propagates (the `except` clause records the error
and re-raises). -/
def run_phase_1_model (fit_exists raises1 : Bool) : (ℕ × String) × Bool :=
  if fit_exists = false then ((1, "skipped"), false)
  else if raises1 then ((1, "error"), true)
  else ((1, "success"), false)

/-- `PipelineOrchestrator.run_phase_2` (pipeline.py lines 138-181): if
`Activities.csv` is missing it first runs phase 1 inside its own `try`;
`raises2` abstracts an unexpected exception in the phase-2 body (form
analysis / target profiles / synthetic data).  The `except` clause records
`results[2] = error` and re-raises. -/
def run_phase_2_model (activities_exists fit_exists raises1 raises2 : Bool) :
    List (ℕ × String) × Bool :=
  let pre : List (ℕ × String) × Bool :=
    if activities_exists = false then
      let p1 := run_phase_1_model fit_exists raises1
      ([p1.1], p1.2)
    else ([], false)
  if pre.2 then (pre.1 ++ [(2, "error")], true)
  else if raises2 then (pre.1 ++ [(2, "error")], true)
  else (pre.1 ++ [(2, "success")], false)

/-- `PipelineOrchestrator.run` (pipeline.py lines 224-256) with
`dry_run=False`: executes the selected phases in order inside one `try`;
any exception escaping a phase aborts the remaining phases and exits with
code 1.  Phases 3 and 4 are placeholders that only record
`not_implemented`. -/
def orchestrator_run (phases : List ℕ) (fit_exists activities_exists raises1 raises2 : Bool) :
    OrchResult :=
  let s1 : List (ℕ × String) × Bool :=
    if 1 ∈ phases then
      let p1 := run_phase_1_model fit_exists raises1
      ([p1.1], p1.2)
    else ([], false)
  if s1.2 then ⟨s1.1, 1⟩
  else
    let s2 : List (ℕ × String) × Bool :=
      if 2 ∈ phases then run_phase_2_model activities_exists fit_exists raises1 raises2
      else ([], false)
    if s2.2 then ⟨s1.1 ++ s2.1, 1⟩
    else
      let s3 := if 3 ∈ phases then [(3, "not_implemented")] else []
      let s4 := if 4 ∈ phases then [(4, "not_implemented")] else []
      ⟨s1.1 ++ s2.1 ++ s3 ++ s4, 0⟩

/-- `run_full_pipeline()` of the script-level orchestrator (unnamed source
`pipeline copy.py`, lines 31-71), modelled by the list of console messages
it prints.  `df_empty` abstracts an empty `Activities.csv`; `form_raises`
and `synth_raises` abstract an exception raised anywhere inside the
phase-2 / phase-3 `try` blocks; the success-path report printouts are
collapsed to placeholder lines. -/
def run_full_pipeline (df_empty form_raises synth_raises : Bool) : List String :=
  if df_empty then
    ["🚀 GARMIN RUNNING AI PIPELINE", "📥 PHASE 1: DATA INGESTION & ANALYSIS",
      "❌ Copy Activities.csv to data/"]
  else
    ["🚀 GARMIN RUNNING AI PIPELINE", "📥 PHASE 1: DATA INGESTION & ANALYSIS",
      "activities analyzed and profile saved", "📊 PHASE 2: FORM ANALYSIS"]
    ++ (if form_raises then ["⚠️ Form analysis skipped"]
        else ["form analysis report printed", "target profiles printed"])
    ++ ["🔬 PHASE 3: SYNTHETIC TRAINING DATA"]
    ++ (if synth_raises then ["⚠️ Synthetic data skipped"]
        else ["✅ 432 ML runs generated!"])
    ++ ["🎉 PIPELINE COMPLETE!"]

/- ───────────── Concrete instances used by witnesses / counterexamples ─── -/

/-- A profile whose cadence scores 70.1 and whose five other metrics score
100 under `score_metric`. -/
def profileMixed : Profile :=
  { avg_cadence := 162.55
    avg_vertical_oscillation := 6
    avg_vertical_ratio := 7
    avg_ground_contact_time := 220
    avg_step_speed_loss_pct := 2
    avg_hr := 90
    max_hr := 100 }

/-- A profile on which every weighted metric scores exactly 100. -/
def profileElite : Profile :=
  { avg_cadence := 185
    avg_vertical_oscillation := 6
    avg_vertical_ratio := 7
    avg_ground_contact_time := 220
    avg_step_speed_loss_pct := 2
    avg_hr := 90
    max_hr := 100 }

/-- Current profile of the concrete generator run used for claim C9:
cadence 160, all other metrics held constant. -/
def currentC9 : CurrentProfile :=
  { avg_cadence := 160
    avg_vertical_oscillation := 8
    avg_ground_contact_time := 260
    avg_step_speed_loss_pct := 6
    avg_hr := 150 }

/-- Target ideals of the concrete generator run used for claim C9:
cadence 166, all other ideals equal to the current values. -/
def targetC9 : TargetIdeals :=
  { cadence_spm := 166
    vertical_oscillation_cm := 8
    ground_contact_time_ms := 260
    step_speed_loss_percent := 6
    hr_efficiency := 150 }

/-- Draw stream of the concrete generator run used for claim C9: cadence
noise draws −5, −201/32, 0 for weeks 1-3 (producing the rounded cadence
progression [160, 161.99, 166]), zero noise elsewhere, constant distance 8
km and duration 40 min. -/
def drawsC9 : DrawStream :=
  { gCad := fun w => if w = 1 then -5 else if w = 2 then -(201/32) else 0
    gVo := fun _ => 0
    gGct := fun _ => 0
    gSsl := fun _ => 0
    gHr := fun _ => 0
    dist := fun _ _ => 8
    dur := fun _ _ => 40 }

/-- Default `SyntheticRun` used as the `getD` fallback when indexing the
generated run list (never actually selected in the proofs below). -/
def dummyRun : SyntheticRun :=
  ⟨0, 0, 0, 0, 0, 0, 0, 0, 0, 0, 0, 0, 0, ""⟩

/- ═══════════════════════════ Theorems ═══════════════════════════ -/

/- ── Arithmetic helper lemmas ── -/

/-- `intRound` agrees with Mathlib's `round`. -/
theorem intRound_eq_round (q : ℚ) : intRound q = round q := by
  rw [round_eq, intRound, Rat.floor_def, Rat.floor_def']

theorem intRound_eq_of {q : ℚ} {z : ℤ} (h1 : (z : ℚ) ≤ q + 1/2) (h2 : q + 1/2 < z + 1) :
    intRound q = z := by
  rw [intRound_eq_round, round_eq]
  refine Int.floor_eq_iff.mpr ⟨h1, ?_⟩
  linarith

/-- Rounding to the nearest integer is monotone. -/
theorem intRound_mono {x y : ℚ} (h : x ≤ y) : intRound x ≤ intRound y := by
  rw [intRound_eq_round, intRound_eq_round, round_eq, round_eq]
  exact Int.floor_mono (by linarith)

theorem round1_eq {q : ℚ} {z : ℤ} (h1 : (z : ℚ) ≤ q * 10 + 1/2) (h2 : q * 10 + 1/2 < z + 1) :
    round1 q = (z : ℚ) / 10 := by
  unfold round1 roundTo
  rw [pow_one, intRound_eq_of h1 h2]

theorem round2_eq {q : ℚ} {z : ℤ} (h1 : (z : ℚ) ≤ q * 100 + 1/2) (h2 : q * 100 + 1/2 < z + 1) :
    round2 q = (z : ℚ) / 100 := by
  unfold round2 roundTo
  norm_num
  rw [intRound_eq_of h1 h2]

theorem round0_eq {q : ℚ} {z : ℤ} (h1 : (z : ℚ) ≤ q + 1/2) (h2 : q + 1/2 < z + 1) :
    round0 q = (z : ℚ) := by
  unfold round0 roundTo
  norm_num
  rw [intRound_eq_of h1 h2]

/-- `round1` is monotone. -/
theorem round1_mono {x y : ℚ} (h : x ≤ y) : round1 x ≤ round1 y := by
  unfold round1 roundTo
  have h10 : x * 10 ^ 1 ≤ y * 10 ^ 1 := by nlinarith
  have hc : ((intRound (x * 10 ^ 1) : ℤ) : ℚ) ≤ ((intRound (y * 10 ^ 1) : ℤ) : ℚ) := by
    exact_mod_cast intRound_mono h10
  have hpos : (0 : ℚ) ≤ 10 ^ 1 := by norm_num
  exact div_le_div_of_nonneg_right hc hpos |>.trans_eq rfl

theorem round1_zero : round1 (0 : ℚ) = 0 := by
  rw [round1_eq (z := 0) (by norm_num) (by norm_num)]
  norm_num

theorem round1_30 : round1 (30 : ℚ) = 30 := by
  rw [round1_eq (z := 300) (by norm_num) (by norm_num)]
  norm_num

theorem round1_100 : round1 (100 : ℚ) = 100 := by
  rw [round1_eq (z := 1000) (by norm_num) (by norm_num)]
  norm_num

theorem le_rmax_left (a b : ℚ) : a ≤ rmax a b := by
  unfold rmax
  split_ifs with h
  · exact h
  · exact le_refl a

theorem rmax_le {a b c : ℚ} (ha : a ≤ c) (hb : b ≤ c) : rmax a b ≤ c := by
  unfold rmax
  split <;> assumption

theorem clamp_no_op {x : ℚ} (h0 : 0 ≤ x) (h1 : x ≤ 100) : rmax 0 (rmin 100 x) = x := by
  unfold rmax rmin
  split_ifs <;> linarith

/- ── Benchmark polarity facts ── -/

theorem lower_cadence : lowerIsBetter (BENCHMARKS .cadence_spm) = false := by decide

theorem lower_vo : lowerIsBetter (BENCHMARKS .vertical_oscillation_cm) = true := by decide

theorem lower_vr : lowerIsBetter (BENCHMARKS .vertical_ratio) = true := by decide

theorem lower_gct : lowerIsBetter (BENCHMARKS .ground_contact_time_ms) = false := by decide

theorem lower_ssl : lowerIsBetter (BENCHMARKS .step_speed_loss_percent) = true := by decide

theorem lower_hr : lowerIsBetter (BENCHMARKS .hr_efficiency) = true := by decide

/- ── Raw score bounds ── -/

theorem rawScore_lower_bounds (v : ℚ) (k : BenchKey)
    (hk : lowerIsBetter (BENCHMARKS k) = true)
    (hgood : (BENCHMARKS k).good.min < (BENCHMARKS k).good.max)
    (hlink : (BENCHMARKS k).good.min ≤ (BENCHMARKS k).elite.max) :
    0 ≤ rawScore v k ∧ rawScore v k ≤ 100 ∧ 30 ≤ rawScore v k := by
  simp only [rawScore, hk, if_true]
  split_ifs with h1 h2 h3
  · norm_num
  · have hd0 : 0 ≤ (v - (BENCHMARKS k).good.min) / ((BENCHMARKS k).good.max - (BENCHMARKS k).good.min) :=
      div_nonneg (by linarith [h2.1]) (by linarith)
    have hd1 : (v - (BENCHMARKS k).good.min) / ((BENCHMARKS k).good.max - (BENCHMARKS k).good.min) ≤ 1 :=
      (div_le_one (by linarith)).mpr (by linarith [h2.2])
    refine ⟨by nlinarith, by nlinarith, by nlinarith⟩
  · norm_num
  · have hemin : (BENCHMARKS k).elite.min ≤ v := not_lt.mp h3
    have hemax : (BENCHMARKS k).elite.max < v := by
      by_contra hc
      exact h1 ⟨hemin, not_lt.mp hc⟩
    have hgmin : (BENCHMARKS k).good.min ≤ v := le_trans hlink (le_of_lt hemax)
    have hv : (BENCHMARKS k).good.max < v := by
      by_contra hc
      exact h2 ⟨hgmin, not_lt.mp hc⟩
    refine ⟨?_, ?_, le_rmax_left 30 _⟩
    · linarith [le_rmax_left 30 (70 - (v - (BENCHMARKS k).good.max) * 5)]
    · exact rmax_le (by norm_num) (by nlinarith)

theorem rawScore_higher_bounds (v : ℚ) (k : BenchKey)
    (hk : lowerIsBetter (BENCHMARKS k) = false)
    (htgt : (BENCHMARKS k).target.min < (BENCHMARKS k).target.max) :
    0 ≤ rawScore v k ∧ rawScore v k ≤ 100 := by
  simp only [rawScore, hk, Bool.false_eq_true, if_false]
  split_ifs with h1 h2 h3
  · norm_num
  · have hd0 : 0 ≤ (v - (BENCHMARKS k).target.min) / ((BENCHMARKS k).target.max - (BENCHMARKS k).target.min) :=
      div_nonneg (by linarith [h2.1]) (by linarith)
    have hd1 : (v - (BENCHMARKS k).target.min) / ((BENCHMARKS k).target.max - (BENCHMARKS k).target.min) ≤ 1 :=
      (div_le_one (by linarith)).mpr (by linarith [h2.2])
    refine ⟨by nlinarith, by nlinarith⟩
  · refine ⟨?_, ?_⟩
    · linarith [le_rmax_left 30 (75 - ((BENCHMARKS k).target.min - v) * 2)]
    · exact rmax_le (by norm_num) (by nlinarith)
  · have htmin : (BENCHMARKS k).target.min ≤ v := not_lt.mp h3
    have hv : (BENCHMARKS k).target.max < v := by
      by_contra hc
      exact h2 ⟨htmin, not_lt.mp hc⟩
    refine ⟨le_rmax_left 0 _, rmax_le (by norm_num) (by nlinarith)⟩

theorem rawScore_bounds (v : ℚ) (k : BenchKey) :
    0 ≤ rawScore v k ∧ rawScore v k ≤ 100 ∧
      (lowerIsBetter (BENCHMARKS k) = false ∨ 30 ≤ rawScore v k) := by
  cases k
  case cadence_spm =>
    have h := rawScore_higher_bounds v .cadence_spm lower_cadence (by norm_num [BENCHMARKS])
    exact ⟨h.1, h.2, Or.inl lower_cadence⟩
  case vertical_oscillation_cm =>
    have h := rawScore_lower_bounds v _ lower_vo (by norm_num [BENCHMARKS]) (by norm_num [BENCHMARKS])
    exact ⟨h.1, h.2.1, Or.inr h.2.2⟩
  case vertical_ratio =>
    have h := rawScore_lower_bounds v _ lower_vr (by norm_num [BENCHMARKS]) (by norm_num [BENCHMARKS])
    exact ⟨h.1, h.2.1, Or.inr h.2.2⟩
  case ground_contact_time_ms =>
    have h := rawScore_higher_bounds v .ground_contact_time_ms lower_gct (by norm_num [BENCHMARKS])
    exact ⟨h.1, h.2, Or.inl lower_gct⟩
  case step_speed_loss_percent =>
    have h := rawScore_lower_bounds v _ lower_ssl (by norm_num [BENCHMARKS]) (by norm_num [BENCHMARKS])
    exact ⟨h.1, h.2.1, Or.inr h.2.2⟩
  case hr_efficiency =>
    have h := rawScore_lower_bounds v _ lower_hr (by norm_num [BENCHMARKS]) (by norm_num [BENCHMARKS])
    exact ⟨h.1, h.2.1, Or.inr h.2.2⟩

/-- The returned score equals the raw score rounded (the `[0, 100]` clamp
never changes the raw score), and is bounded accordingly. -/
theorem score_metric_score_eq (v : ℚ) (k : BenchKey) :
    (score_metric v k).score = round1 (rawScore v k) := by
  have h := rawScore_bounds v k
  simp only [score_metric]
  rw [clamp_no_op h.1 h.2.1]

/-- The score is 100 whenever the value lies inside the elite range (both
polarity branches test the elite range first). -/
theorem rawScore_elite {v : ℚ} {k : BenchKey}
    (h1 : (BENCHMARKS k).elite.min ≤ v) (h2 : v ≤ (BENCHMARKS k).elite.max) :
    rawScore v k = 100 := by
  unfold rawScore
  rcases Bool.eq_false_or_eq_true (lowerIsBetter (BENCHMARKS k)) with hl | hl <;>
    simp [hl, h1, h2]

/-- C2: for every numeric input value and every benchmark key, the score
returned by `score_metric` lies in [0, 100]; for the lower-is-better
benchmarks (description containing "lower") it is moreover at least 30;
in particular it is never negative and never exceeds 100. -/
theorem c2_score_bounds (v : ℚ) (k : BenchKey) :
    0 ≤ (score_metric v k).score ∧ (score_metric v k).score ≤ 100 ∧
      (lowerIsBetter (BENCHMARKS k) = false ∨ 30 ≤ (score_metric v k).score) := by
  have h := rawScore_bounds v k
  rw [score_metric_score_eq]
  refine ⟨?_, ?_, ?_⟩
  · have hm := round1_mono h.1
    rwa [round1_zero] at hm
  · have hm := round1_mono h.2.1
    rwa [round1_100] at hm
  · rcases h.2.2 with hf | h30
    · exact Or.inl hf
    · refine Or.inr ?_
      have hm := round1_mono h30
      rwa [round1_30] at hm

/-- C4: a value exactly equal to the elite range's minimum or maximum
boundary is scored 100 by `score_metric`, for every benchmark key
(including ground contact time at 240, where the elite maximum coincides
with the good/target minimum). -/
theorem c4_elite_boundary_score (k : BenchKey) :
    (score_metric (BENCHMARKS k).elite.min k).score = 100 ∧
    (score_metric (BENCHMARKS k).elite.max k).score = 100 := by
  constructor <;>
    · rw [score_metric_score_eq,
        rawScore_elite (by cases k <;> norm_num [BENCHMARKS]) (by cases k <;> norm_num [BENCHMARKS])]
      exact round1_100

/-- C5 (amended): the status label returned by `score_metric` is determined
by the *unrounded* score with thresholds 95 / 75 / 60, while the returned
score field is that raw score (whose value already lies in [0, 100], so the
clamp is inert) rounded to one decimal. -/
theorem c5_status_from_unrounded (v : ℚ) (k : BenchKey) :
    (score_metric v k).status = statusOf (rawScore v k) ∧
    (score_metric v k).score = round1 (rawScore v k) ∧
    0 ≤ rawScore v k ∧ rawScore v k ≤ 100 :=
  ⟨rfl, score_metric_score_eq v k,
    (rawScore_bounds v k).1, (rawScore_bounds v k).2.1⟩

/-- C5 counterexample: at value 8.666 for vertical oscillation the raw
score is 94.99, so the returned rounded score is 95.0, yet the returned
status is "✅ Good" while the claimed threshold rule applied to the
returned rounded score demands "⭐ Elite". -/
theorem c5_status_rounding_counterexample :
    (score_metric (4333/500) .vertical_oscillation_cm).score = 95 ∧
    statusOf ((score_metric (4333/500) .vertical_oscillation_cm).score) = "⭐ Elite" ∧
    (score_metric (4333/500) .vertical_oscillation_cm).status = "✅ Good" ∧
    ("✅ Good" : String) ≠ "⭐ Elite" := by
  have hraw : rawScore (4333/500) .vertical_oscillation_cm = 9499/100 := by
    simp only [rawScore, lower_vo, if_true]
    norm_num [BENCHMARKS]
  have hs : (score_metric (4333/500) .vertical_oscillation_cm).score = 95 := by
    rw [score_metric_score_eq, hraw, round1_eq (z := 950) (by norm_num) (by norm_num)]
    norm_num
  have hst : (score_metric (4333/500) .vertical_oscillation_cm).status
      = statusOf (rawScore (4333/500) .vertical_oscillation_cm) := rfl
  refine ⟨hs, ?_, ?_, by decide⟩
  · rw [hs]
    norm_num [statusOf]
  · rw [hst, hraw]
    norm_num [statusOf]

/-- The overall score of `analyze_form` is the weighted sum of the five
weighted metric scores, rounded to one decimal. -/
theorem analyze_form_overall (p : Profile) :
    (analyze_form p).overall_score =
      round1 ((analyze_form p).cadence.score * 0.15 +
        (analyze_form p).vertical_oscillation.score * 0.20 +
        (analyze_form p).ground_contact_time.score * 0.20 +
        (analyze_form p).step_speed_loss.score * 0.25 +
        (analyze_form p).hr_efficiency.score * 0.20) := rfl

/-- C3 (amended): the overall form score equals the weighted sum of the
five per-metric scores with weights 0.15 / 0.20 / 0.20 / 0.25 / 0.20
*rounded to one decimal place*; the weights sum to 1.0, and whenever all
five sub-scores equal 100 the overall score equals 100.0. -/
theorem c3_overall_weighted_sum (p : Profile) :
    (analyze_form p).overall_score =
      round1 ((analyze_form p).cadence.score * 0.15 +
        (analyze_form p).vertical_oscillation.score * 0.20 +
        (analyze_form p).ground_contact_time.score * 0.20 +
        (analyze_form p).step_speed_loss.score * 0.25 +
        (analyze_form p).hr_efficiency.score * 0.20) ∧
    (overall_weights.map Prod.snd).sum = 1 ∧
    (((analyze_form p).cadence.score = 100 ∧
      (analyze_form p).vertical_oscillation.score = 100 ∧
      (analyze_form p).ground_contact_time.score = 100 ∧
      (analyze_form p).step_speed_loss.score = 100 ∧
      (analyze_form p).hr_efficiency.score = 100) →
        (analyze_form p).overall_score = 100) := by
  refine ⟨analyze_form_overall p, by norm_num [overall_weights], fun h => ?_⟩
  obtain ⟨h1, h2, h3, h4, h5⟩ := h
  rw [analyze_form_overall p, h1, h2, h3, h4, h5]
  norm_num [round1_100]

/-- C3 witness: on a profile where every weighted metric is elite, all five
sub-scores are 100 and the overall score is exactly 100. -/
theorem c3_overall_weighted_sum_witness : (analyze_form profileElite).overall_score = 100 := by
  have ecad : (analyze_form profileElite).cadence = score_metric profileElite.avg_cadence .cadence_spm := rfl
  have evo : (analyze_form profileElite).vertical_oscillation
      = score_metric profileElite.avg_vertical_oscillation .vertical_oscillation_cm := rfl
  have egct : (analyze_form profileElite).ground_contact_time
      = score_metric profileElite.avg_ground_contact_time .ground_contact_time_ms := rfl
  have essl : (analyze_form profileElite).step_speed_loss
      = score_metric profileElite.avg_step_speed_loss_pct .step_speed_loss_percent := rfl
  have ehr : (analyze_form profileElite).hr_efficiency
      = score_metric (profileElite.avg_hr / profileElite.max_hr * 100) .hr_efficiency := rfl
  refine (c3_overall_weighted_sum profileElite).2.2 ⟨?_, ?_, ?_, ?_, ?_⟩
  · rw [ecad, score_metric_score_eq,
      rawScore_elite (by norm_num [BENCHMARKS, profileElite]) (by norm_num [BENCHMARKS, profileElite])]
    exact round1_100
  · rw [evo, score_metric_score_eq,
      rawScore_elite (by norm_num [BENCHMARKS, profileElite]) (by norm_num [BENCHMARKS, profileElite])]
    exact round1_100
  · rw [egct, score_metric_score_eq,
      rawScore_elite (by norm_num [BENCHMARKS, profileElite]) (by norm_num [BENCHMARKS, profileElite])]
    exact round1_100
  · rw [essl, score_metric_score_eq,
      rawScore_elite (by norm_num [BENCHMARKS, profileElite]) (by norm_num [BENCHMARKS, profileElite])]
    exact round1_100
  · rw [ehr, score_metric_score_eq,
      rawScore_elite (by norm_num [BENCHMARKS, profileElite]) (by norm_num [BENCHMARKS, profileElite])]
    exact round1_100

/-- C3 counterexample: on a profile whose cadence scores 70.1 and whose
other four weighted metrics score 100, the weighted sum is 95.515 but the
stored overall score is the rounded 95.5, so the overall score does not
equal the weighted sum itself. -/
theorem c3_overall_rounding_counterexample :
    (analyze_form profileMixed).overall_score ≠
      (analyze_form profileMixed).cadence.score * 0.15 +
      (analyze_form profileMixed).vertical_oscillation.score * 0.20 +
      (analyze_form profileMixed).ground_contact_time.score * 0.20 +
      (analyze_form profileMixed).step_speed_loss.score * 0.25 +
      (analyze_form profileMixed).hr_efficiency.score * 0.20 := by
  have ecad : (analyze_form profileMixed).cadence = score_metric profileMixed.avg_cadence .cadence_spm := rfl
  have evo : (analyze_form profileMixed).vertical_oscillation
      = score_metric profileMixed.avg_vertical_oscillation .vertical_oscillation_cm := rfl
  have egct : (analyze_form profileMixed).ground_contact_time
      = score_metric profileMixed.avg_ground_contact_time .ground_contact_time_ms := rfl
  have essl : (analyze_form profileMixed).step_speed_loss
      = score_metric profileMixed.avg_step_speed_loss_pct .step_speed_loss_percent := rfl
  have ehr : (analyze_form profileMixed).hr_efficiency
      = score_metric (profileMixed.avg_hr / profileMixed.max_hr * 100) .hr_efficiency := rfl
  have hcadraw : rawScore profileMixed.avg_cadence .cadence_spm = 701/10 := by
    simp only [rawScore, lower_cadence, Bool.false_eq_true, if_false]
    norm_num [BENCHMARKS, profileMixed, rmax]
  have hcad : (analyze_form profileMixed).cadence.score = 701/10 := by
    rw [ecad, score_metric_score_eq, hcadraw, round1_eq (z := 701) (by norm_num) (by norm_num)]
    norm_num
  have hvo : (analyze_form profileMixed).vertical_oscillation.score = 100 := by
    rw [evo, score_metric_score_eq,
      rawScore_elite (by norm_num [BENCHMARKS, profileMixed]) (by norm_num [BENCHMARKS, profileMixed])]
    exact round1_100
  have hgct : (analyze_form profileMixed).ground_contact_time.score = 100 := by
    rw [egct, score_metric_score_eq,
      rawScore_elite (by norm_num [BENCHMARKS, profileMixed]) (by norm_num [BENCHMARKS, profileMixed])]
    exact round1_100
  have hssl : (analyze_form profileMixed).step_speed_loss.score = 100 := by
    rw [essl, score_metric_score_eq,
      rawScore_elite (by norm_num [BENCHMARKS, profileMixed]) (by norm_num [BENCHMARKS, profileMixed])]
    exact round1_100
  have hhr : (analyze_form profileMixed).hr_efficiency.score = 100 := by
    rw [ehr, score_metric_score_eq,
      rawScore_elite (by norm_num [BENCHMARKS, profileMixed]) (by norm_num [BENCHMARKS, profileMixed])]
    exact round1_100
  rw [analyze_form_overall profileMixed, hcad, hvo, hgct, hssl, hhr]
  rw [show (701/10 : ℚ) * 0.15 + 100 * 0.20 + 100 * 0.20 + 100 * 0.25 + 100 * 0.20 = 19103/200 by norm_num]
  rw [round1_eq (z := 955) (by norm_num) (by norm_num)]
  norm_num

/-- C10: the overall score of `analyze_form` does not depend on the
profile's `avg_vertical_ratio`: replacing it by any value leaves the
overall score unchanged, even though the vertical-ratio metric itself is
scored from it. -/
theorem c10_overall_ignores_vertical_ratio (p : Profile) (q : ℚ) :
    (analyze_form { p with avg_vertical_ratio := q }).overall_score
      = (analyze_form p).overall_score ∧
    (analyze_form { p with avg_vertical_ratio := q }).vertical_ratio
      = score_metric q .vertical_ratio :=
  ⟨rfl, rfl⟩

/-- C6: the elite-target selection of `predict_new_run` is the
upper-inclusive distance ladder described by the specification
(`d ≤ 7` → 5K targets with pace 4.20 / cadence 180 / HR 165,
`7 < d ≤ 15` → 10K, `15 < d ≤ 25` → Half, `d > 25` → base Marathon
targets unchanged); in particular distance 7.0 selects the 5K targets and
distance 7.01 selects the 10K targets. -/
theorem c6_distance_ladder :
    (∀ d : ℚ, distance_elite_targets d = spec_distance_ladder d) ∧
    distance_elite_targets 7
      = (⟨180.0, 7.2, 245.0, 4.5, 165.0, 4.20⟩, "5K Training") ∧
    distance_elite_targets (701/100)
      = (⟨178.0, 7.2, 245.0, 4.5, 162.0, 4.35⟩, "10K Training") := by
  refine ⟨fun d => ?_, ?_, ?_⟩
  · by_cases h7 : d ≤ 7
    · norm_num [distance_elite_targets, spec_distance_ladder, base_elite_targets, h7]
    · have h7' : 7 < d := not_le.mp h7
      by_cases h15 : d ≤ 15
      · norm_num [distance_elite_targets, spec_distance_ladder, base_elite_targets, h7, h7', h15]
      · have h15' : 15 < d := not_le.mp h15
        by_cases h25 : d ≤ 25
        · norm_num [distance_elite_targets, spec_distance_ladder, base_elite_targets,
            h7, h7', h15, h15', h25]
        · norm_num [distance_elite_targets, spec_distance_ladder, base_elite_targets,
            h7, h7', h15, h15', h25]
  · norm_num [distance_elite_targets, base_elite_targets]
  · norm_num [distance_elite_targets, base_elite_targets]

/- ── Digit-string helper lemmas for the pace parser ── -/

theorem digitChar_good {d : ℕ} (h : d < 10) : goodDigit (Nat.digitChar d) := by
  interval_cases d <;>
    exact ⟨by decide, by decide, by decide, by decide, by decide⟩

theorem digitChar_toNat {d : ℕ} (h : d < 10) : (Nat.digitChar d).toNat - 48 = d := by
  interval_cases d <;> decide

theorem toDigitChars_ne_nil (n : ℕ) : toDigitChars n ≠ [] := by
  rw [toDigitChars]
  split <;> simp

theorem toDigitChars_good (n : ℕ) : ∀ c ∈ toDigitChars n, goodDigit c := by
  induction n using Nat.strong_induction_on with
  | _ n ih =>
    rw [toDigitChars]
    split
    · next h =>
      intro c hc
      rw [List.mem_singleton] at hc
      subst hc
      exact digitChar_good h
    · next h =>
      intro c hc
      rcases List.mem_append.mp hc with hm | hm
      · exact ih (n / 10) (Nat.div_lt_self (by omega) (by norm_num)) c hm
      · rw [List.mem_singleton] at hm
        subst hm
        exact digitChar_good (Nat.mod_lt n (by norm_num))

theorem digitsVal_append_singleton (xs : List Char) (c : Char) :
    digitsVal (xs ++ [c]) = 10 * digitsVal xs + (c.toNat - 48) := by
  unfold digitsVal
  rw [List.foldl_append]
  rfl

theorem digitsVal_toDigitChars (n : ℕ) : digitsVal (toDigitChars n) = n := by
  induction n using Nat.strong_induction_on with
  | _ n ih =>
    rw [toDigitChars]
    split
    · next h =>
      show digitsVal [Nat.digitChar n] = n
      unfold digitsVal
      simp [digitChar_toNat h]
    · next h =>
      rw [digitsVal_append_singleton,
        ih (n / 10) (Nat.div_lt_self (by omega) (by norm_num)),
        digitChar_toNat (Nat.mod_lt n (by norm_num))]
      omega

theorem dropWhile_eq_self_of {p : Char → Bool} :
    ∀ {xs : List Char}, (∀ c ∈ xs, p c = false) → xs.dropWhile p = xs
  | [], _ => rfl
  | a :: t, h => by
    rw [List.dropWhile_cons, h a (by simp)]
    simp

theorem trimChars_eq_self {xs : List Char} (h : ∀ c ∈ xs, isPySpace c = false) :
    trimChars xs = xs := by
  unfold trimChars
  rw [dropWhile_eq_self_of h,
    dropWhile_eq_self_of (fun c hc => h c (List.mem_reverse.mp hc)), List.reverse_reverse]

theorem takeWhile_eq_self_of {p : Char → Bool} :
    ∀ {xs : List Char}, (∀ c ∈ xs, p c = true) → xs.takeWhile p = xs
  | [], _ => rfl
  | a :: t, h => by
    have ha : p a = true := h a (List.mem_cons_self a t)
    have ht : t.takeWhile p = t :=
      takeWhile_eq_self_of fun c hc => h c (List.mem_cons_of_mem a hc)
    simp [List.takeWhile_cons, ha, ht]

theorem takeWhile_append_of {p : Char → Bool} {xs : List Char}
    (hxs : ∀ c ∈ xs, p c = true) {y : Char} (hy : p y = false) (ys : List Char) :
    (xs ++ y :: ys).takeWhile p = xs := by
  induction xs with
  | nil => simp [List.takeWhile_cons, hy]
  | cons a t ih =>
    have ha : p a = true := hxs a (by simp)
    simp only [List.cons_append, List.takeWhile_cons, ha, if_true]
    rw [ih fun c hc => hxs c (by simp [hc])]

theorem dropWhile_append_of {p : Char → Bool} {xs : List Char}
    (hxs : ∀ c ∈ xs, p c = true) {y : Char} (hy : p y = false) (ys : List Char) :
    (xs ++ y :: ys).dropWhile p = y :: ys := by
  induction xs with
  | nil => simp [List.dropWhile_cons, hy]
  | cons a t ih =>
    have ha : p a = true := hxs a (by simp)
    simp only [List.cons_append, List.dropWhile_cons, ha, if_true]
    exact ih fun c hc => hxs c (by simp [hc])

theorem pyIntChars_digits {xs : List Char} (hne : xs ≠ [])
    (hd : ∀ c ∈ xs, goodDigit c) :
    pyIntChars xs = some ((digitsVal xs : ℕ) : ℤ) := by
  have htrim : trimChars xs = xs := trimChars_eq_self fun c hc => (hd c hc).2.1
  unfold pyIntChars
  rw [htrim]
  cases xs with
  | nil => exact absurd rfl hne
  | cons c rest =>
    have hc := hd c (by simp)
    rw [pyIntCore, if_neg (by simpa using hc.2.2.1), if_neg (by simpa using hc.2.2.2.1),
      if_pos ?_]
    exact List.all_eq_true.mpr fun x hx => (hd x hx).1

/-- A well-formed `"M:SS"` string parses to `M + SS/60` minutes per km. -/
theorem parse_mss (m s : ℕ) :
    parse_garmin_pace (some (mkPaceString m s)) = .ok ((m : ℚ) + (s : ℚ) / 60) := by
  have hgm := toDigitChars_good m
  have hgs := toDigitChars_good s
  have hnospace : ∀ c ∈ toDigitChars m ++ ':' :: toDigitChars s, isPySpace c = false := by
    intro c hc
    rcases List.mem_append.mp hc with h | h
    · exact (hgm c h).2.1
    · rcases List.mem_cons.mp h with h | h
      · subst h
        decide
      · exact (hgs c h).2.1
  have htrim : trimChars ((mkPaceString m s).data) = toDigitChars m ++ ':' :: toDigitChars s :=
    trimChars_eq_self hnospace
  have hcontains : (toDigitChars m ++ ':' :: toDigitChars s).contains ':' = true := by
    simp
  have hp0 : (toDigitChars m ++ ':' :: toDigitChars s).takeWhile (fun c => c ≠ ':')
      = toDigitChars m :=
    takeWhile_append_of (fun c hc => decide_eq_true (hgm c hc).2.2.2.2) (by decide) _
  have hdrop : (toDigitChars m ++ ':' :: toDigitChars s).dropWhile (fun c => c ≠ ':')
      = ':' :: toDigitChars s :=
    dropWhile_append_of (fun c hc => decide_eq_true (hgm c hc).2.2.2.2) (by decide) _
  have hp1 : ((':' :: toDigitChars s).tail).takeWhile (fun c => c ≠ ':') = toDigitChars s := by
    rw [List.tail_cons]
    exact takeWhile_eq_self_of fun c hc => decide_eq_true (hgs c hc).2.2.2.2
  have hint0 : pyIntChars (toDigitChars m) = some ((m : ℕ) : ℤ) := by
    rw [pyIntChars_digits (toDigitChars_ne_nil m) hgm, digitsVal_toDigitChars]
  have hint1 : pyIntChars (toDigitChars s) = some ((s : ℕ) : ℤ) := by
    rw [pyIntChars_digits (toDigitChars_ne_nil s) hgs, digitsVal_toDigitChars]
  simp only [parse_garmin_pace, htrim, hcontains, if_true, hp0, hdrop, hp1, hint0, hint1]
  push_cast
  rfl

/-- C7 (amended): `parse_garmin_pace` maps a missing value (None/NaN) and
the empty or whitespace-only string to the default 5.5 min/km, maps every
well-formed `"M:SS"` string to `M + SS/60`, parses plain numeric strings
as floats, and *raises* `ValueError` (rather than returning the default)
on other malformed strings such as `"abc"`. -/
theorem c7_pace_parsing :
    parse_garmin_pace none = .ok (11/2) ∧
    parse_garmin_pace (some "") = .ok (11/2) ∧
    parse_garmin_pace (some "   ") = .ok (11/2) ∧
    (∀ m s : ℕ, parse_garmin_pace (some (mkPaceString m s)) = .ok ((m : ℚ) + (s : ℚ) / 60)) ∧
    parse_garmin_pace (some "5:51") = .ok (5 + 51/60) ∧
    parse_garmin_pace (some "6.2") = .ok (31/5) ∧
    parse_garmin_pace (some "abc") = .error "ValueError" := by
  refine ⟨rfl, rfl, rfl, parse_mss, ?_, ?_, rfl⟩
  · have h5 : toDigitChars 5 = ['5'] := by
      rw [toDigitChars]
      norm_num
      decide
    have h51 : toDigitChars 51 = ['5', '1'] := by
      rw [toDigitChars]
      norm_num [h5]
      decide
    have hstr : mkPaceString 5 51 = "5:51" := by
      unfold mkPaceString
      rw [h5, h51]
      rfl
    have := parse_mss 5 51
    rw [hstr] at this
    rw [this]
    norm_num
  · have h : parse_garmin_pace (some "6.2")
        = .ok ((1 : ℚ) * (((6 : ℕ) : ℚ) + ((2 : ℕ) : ℚ) / 10 ^ 1)) := rfl
    rw [h]
    norm_num

/-- C7 counterexample: the non-numeric, colon-free string "abc" makes
`parse_garmin_pace` raise `ValueError` instead of returning the 5.5
default, so the parser does not map every malformed value to 5.5. -/
theorem c7_malformed_raises_counterexample :
    parse_garmin_pace (some "abc") = .error "ValueError" ∧
    (Except.error "ValueError" : Except String ℚ) ≠ .ok (11/2) :=
  ⟨rfl, fun h => Except.noConfusion h⟩

/-- Closed form of each returned entry of `interpolate_metric`: the linear
interpolation value plus the scaled Gaussian draw, rounded to 2 decimals. -/
theorem interpolate_metric_get (c t nl : ℚ) (weeks : ℕ) (g : ℕ → ℚ) (w : ℕ)
    (h1 : 1 ≤ w) (h2 : w ≤ weeks) :
    (interpolate_metric c t weeks nl g).getD (w - 1) 0
      = round2 (c + (t - c) * ((w : ℚ) / (weeks : ℚ))
          + nl * rabs (c - t) * (1 - (w : ℚ) / (weeks : ℚ) * 0.5) * g w) := by
  unfold interpolate_metric
  have hw : w - 1 < weeks := by omega
  rw [List.getD_eq_getElem?_getD, List.getElem?_map, List.getElem?_range hw]
  have hcast : ((w - 1 : ℕ) : ℚ) + 1 = (w : ℚ) := by
    push_cast [Nat.cast_sub h1]
    ring
  simp only [Option.map_some', Option.getD_some, hcast]
  have hsub : w - 1 + 1 = w := by omega
  rw [hsub]

/-- C1 (amended): each value returned by `interpolate_metric` is
`current + (target - current) * (w/weeks)` plus the scaled Gaussian term,
*rounded to two decimals*; at the final week the linear part equals the
target, so the value is `round2(target + noise)`; for current=160,
target=175, weeks=16 with noise_level=0 the returned values at weeks 16
and 8 are exactly 175 and 167.5. -/
theorem c1_interpolation (c t nl : ℚ) (weeks : ℕ) (g h : ℕ → ℚ) (w : ℕ)
    (h1 : 1 ≤ w) (h2 : w ≤ weeks) :
    (interpolate_metric c t weeks nl g).getD (w - 1) 0
      = round2 (c + (t - c) * ((w : ℚ) / (weeks : ℚ))
          + nl * rabs (c - t) * (1 - (w : ℚ) / (weeks : ℚ) * 0.5) * g w) ∧
    (interpolate_metric c t weeks nl g).getD (weeks - 1) 0
      = round2 (t + nl * rabs (c - t) * 0.5 * g weeks) ∧
    (interpolate_metric 160 175 16 0 h).getD 15 0 = 175 ∧
    (interpolate_metric 160 175 16 0 h).getD 7 0 = 335/2 := by
  have hw16 : (interpolate_metric 160 175 16 0 h).getD 15 0 = 175 := by
    have he := interpolate_metric_get 160 175 0 16 h 16 (by norm_num) (by norm_num)
    rw [show (15 : ℕ) = 16 - 1 from rfl, he]
    norm_num
    rw [round2_eq (z := 17500) (by norm_num) (by norm_num)]
    norm_num
  have hw8 : (interpolate_metric 160 175 16 0 h).getD 7 0 = 335/2 := by
    have he := interpolate_metric_get 160 175 0 16 h 8 (by norm_num) (by norm_num)
    rw [show (7 : ℕ) = 8 - 1 from rfl, he]
    norm_num
    rw [round2_eq (z := 16750) (by norm_num) (by norm_num)]
    norm_num
  refine ⟨interpolate_metric_get c t nl weeks g w h1 h2, ?_, hw16, hw8⟩
  · have hwk : 1 ≤ weeks := le_trans h1 h2
    rw [interpolate_metric_get c t nl weeks g weeks hwk (le_refl _)]
    have hne : ((weeks : ℚ)) ≠ 0 := by
      have : (0 : ℚ) < (weeks : ℚ) := by exact_mod_cast (by omega : 0 < weeks)
      exact this.ne'
    rw [div_self hne]
    have harg : c + (t - c) * 1 + nl * rabs (c - t) * (1 - 1 * 0.5) * g weeks
        = t + nl * rabs (c - t) * 0.5 * g weeks := by
      ring_nf
    rw [harg]

/-- C1 witness: the week-8 value of the degenerate 160→175 interpolation is
exactly 167.5. -/
theorem c1_interpolation_witness :
    (interpolate_metric 160 175 16 0 (fun _ => 0)).getD 7 0 = 335/2 :=
  (c1_interpolation 160 175 0 16 (fun _ => 0) (fun _ => 0) 8
    (by norm_num) (by norm_num)).2.2.2

/-- C1 counterexample: with current=160, target=160.004, weeks=1 and zero
noise the returned final-week value is the rounded 160.0, not
target + noise = 160.004, so the final-week value does not equal the
target plus the noise term exactly. -/
theorem c1_rounding_counterexample :
    (interpolate_metric 160 160.004 1 0 (fun _ => 0)).getD 0 0 = 160 ∧
    (160 : ℚ) ≠ 160.004 + 0 := by
  constructor
  · have he := interpolate_metric_get 160 160.004 0 1 (fun _ => 0) 1 (le_refl 1) (le_refl 1)
    rw [show (0 : ℕ) = 1 - 1 from rfl, he]
    norm_num
    rw [round2_eq (z := 16000) (by norm_num) (by norm_num)]
    norm_num
  · norm_num

/-- C9 (amended): every synthesized run's improvement-phase label equals
the guarded rule actually computed by the code: normalized progress
`(cadence - first) / (last - first + 0.001)` of the cadence progression,
with thresholds 0.33 and 0.67. -/
theorem c9_phase_label (c : CurrentProfile) (t : TargetIdeals) (nw rpw : ℕ)
    (r : DrawStream) :
    ((generate_synthetic_progression c t nw rpw r).all fun run =>
      run.improvement_phase
        == spec_phase_guarded ((cadence_progression c t nw r).getD 0 0)
            ((cadence_progression c t nw r).getLastD 0) run.cadence_spm) = true := by
  rw [List.all_eq_true]
  intro run hrun
  unfold generate_synthetic_progression at hrun
  simp only [List.mem_flatMap, List.mem_map, List.mem_range] at hrun
  obtain ⟨wi, hwi, di, hdi, hrfl⟩ := hrun
  subst hrfl
  simp [spec_phase_guarded]

/-- The concrete cadence progression of the C9 counterexample run. -/
theorem cadence_progression_c9 :
    cadence_progression currentC9 targetC9 3 drawsC9 = [160, 16199/100, 166] := by
  unfold cadence_progression interpolate_metric
  rw [show List.range 3 = [0, 1, 2] from rfl]
  simp only [List.map_cons, List.map_nil, currentC9, targetC9, drawsC9]
  norm_num [rabs]
  refine ⟨?_, ?_, ?_⟩
  · rw [round2_eq (z := 16000) (by norm_num) (by norm_num)]
    norm_num
  · rw [round2_eq (z := 16199) (by norm_num) (by norm_num)]
    norm_num
  · rw [round2_eq (z := 16600) (by norm_num) (by norm_num)]
    norm_num

/-- C9 counterexample: in the concrete 3-week, 1-run-per-week generation
with cadence progression [160, 161.99, 166], the week-2 run is labelled
"mid" by the code (progress 1.99/6.001 ≈ 0.3316 ≥ 0.33) while the claimed
rule `(cadence - start)/(end - start)` with thresholds 1/3 and 2/3 labels
it "early" (1.99/6 < 1/3). -/
theorem c9_thirds_counterexample :
    ((generate_synthetic_progression currentC9 targetC9 3 1 drawsC9).getD 1
        dummyRun).improvement_phase = "mid" ∧
    ((generate_synthetic_progression currentC9 targetC9 3 1 drawsC9).getD 1
        dummyRun).cadence_spm = 16199/100 ∧
    cadence_progression currentC9 targetC9 3 drawsC9 = [160, 16199/100, 166] ∧
    spec_phase_thirds 160 166 (16199/100) = "early" ∧
    ("mid" : String) ≠ "early" := by
  refine ⟨?_, ?_, cadence_progression_c9, ?_, by decide⟩
  · simp only [generate_synthetic_progression, cadence_progression_c9,
      show List.range 3 = [0, 1, 2] from rfl, show List.range 1 = [0] from rfl,
      List.flatMap_cons, List.flatMap_nil, List.map_cons, List.map_nil,
      List.append_nil, List.cons_append, List.nil_append,
      List.getD_cons_succ, List.getD_cons_zero]
    norm_num [pickWeek, List.getD, List.getLastD]
  · simp only [generate_synthetic_progression, cadence_progression_c9,
      show List.range 3 = [0, 1, 2] from rfl, show List.range 1 = [0] from rfl,
      List.flatMap_cons, List.flatMap_nil, List.map_cons, List.map_nil,
      List.append_nil, List.cons_append, List.nil_append,
      List.getD_cons_succ, List.getD_cons_zero]
    norm_num [pickWeek, List.getD, List.getLastD]
  · norm_num [spec_phase_thirds]

/-- C8 (amended): in the script-level `run_full_pipeline`, an exception
inside the form-analysis or synthetic-data phase is caught, a
"skipped" warning is printed, and the pipeline continues to its completion
message; in `PipelineOrchestrator`, an unexpected exception in the phase-2
body is caught, recorded as status "error", and re-raised, so `run()`
terminates with exit code 1 and phases 3 and 4 never execute. -/
theorem c8_error_handling :
    (∀ fr sr : Bool,
      ((run_full_pipeline false fr sr).contains "⚠️ Form analysis skipped" = fr) ∧
      ((run_full_pipeline false fr sr).contains "⚠️ Synthetic data skipped" = sr) ∧
      ((run_full_pipeline false fr sr).contains "🎉 PIPELINE COMPLETE!" = true)) ∧
    (orchestrator_run [1, 2, 3, 4] true true false true).results
      = [(1, "success"), (2, "error")] ∧
    (orchestrator_run [1, 2, 3, 4] true true false true).exit_code = 1 := by
  refine ⟨fun fr sr => ?_, by decide, by decide⟩
  cases fr <;> cases sr <;> exact ⟨by decide, by decide, by decide⟩

/-- C8 counterexample: when the phase-2 body raises, `PipelineOrchestrator`
records status "error" (not "skipped") for phase 2, exits with code 1, and
its results contain no phase-3 or phase-4 entry — the run terminates
instead of continuing. -/
theorem c8_orchestrator_stops_counterexample :
    (orchestrator_run [1, 2, 3, 4] true true false true).results
      = [(1, "success"), (2, "error")] ∧
    (orchestrator_run [1, 2, 3, 4] true true false true).exit_code = 1 ∧
    ("error" : String) ≠ "skipped" ∧
    ((orchestrator_run [1, 2, 3, 4] true true false true).results.all
      fun e => e.1 != 3 && e.1 != 4) = true := by
  refine ⟨by decide, by decide, by decide, by decide⟩
